import Mathlib

/-!
Shallow embedding of the ShipmentTrackr alert engine
(`src/services/alertService.js` and `src/hooks/useAlerts.js`).

Conventions of the embedding:
* JS timestamps (`Date` values) are `Nat` milliseconds since the epoch.
  Where JS computes `Math.floor((now - t)/unit)` the code only ever uses the
  result through a `> bound` comparison with a nonnegative bound, so Nat
  truncated subtraction (which maps a negative JS difference to `0`) yields the
  same truth value; where JS compares a float quotient `diff/unit > bound` we
  compare `diff > bound*unit`, which is the same inequality on integers.
* `Date.now()` and `Math.random()` are passed in explicitly (`now`, `rand`):
  the JS functions are ambient inputs of the otherwise pure code.
* The JS alert object literal does not set a `read` field; every reader of
  `read` in the repository tests it for truthiness (`!alert.read`), under
  which an absent field behaves exactly like `false`.  We model `read` as a
  `Bool` field defaulting to `false`; `createAlert` leaves it at the default,
  mirroring the source's omission.
* `shipmentId` is `Option String`: the JS field may be `undefined`
  (a "malformed" shipment in the spec's error taxonomy), and `===` between
  two `undefined` values is `true`, which `Option.instDecidableEq` matches.
* The premium feature gate `hasPremiumFeatures()` is passed in as the
  boolean `premium`, as the spec's §4.1 condition 6 describes it.
-/

namespace ShipmentTrackr

/-- One entry of `shipment.historicalStatuses`. -/
structure HistoricalStatus where
  status : String
  timestamp : Nat
  location : String
deriving DecidableEq

/-- A shipment snapshot, read-only input to the alert engine. -/
structure Shipment where
  shipmentId : Option String
  trackingNumber : String
  carrier : String
  nickname : String
  status : String
  estimatedDelivery : Option Nat := none
  actualDelivery : Option Nat := none
  lastUpdated : Nat
  historicalStatuses : List HistoricalStatus := []
deriving DecidableEq

/-- The `metadata` object attached to an alert: `{carrier, status, ...metadata}`
where the only extra key the source ever passes is `pattern`. -/
structure AlertMetadata where
  carrier : String
  status : String
  pattern : Option String := none
deriving DecidableEq

/-- An alert record as built by `createAlert` and mutated by
`dismissAlert` / `markAlertAsRead`.  `dismissedAt` / `readAt` are absent
(`none`) until the corresponding operation stamps them. -/
structure Alert where
  id : String
  type : String
  priority : String
  title : String
  message : String
  icon : String
  timestamp : Nat
  shipmentId : Option String
  trackingNumber : String
  dismissed : Bool
  dismissedAt : Option Nat := none
  read : Bool := false
  readAt : Option Nat := none
  metadata : AlertMetadata
deriving DecidableEq

/-- One entry of the `ALERT_TYPES` configuration table. -/
structure AlertTypeConfig where
  type : String
  priority : String
  title : String
  icon : String
deriving DecidableEq

namespace ALERT_TYPES

def DELAY_DETECTED : AlertTypeConfig :=
  { type := "warning", priority := "high", title := "Shipment Delayed", icon := "⚠️" }

def DELIVERY_SOON : AlertTypeConfig :=
  { type := "info", priority := "medium", title := "Delivery Today", icon := "📦" }

def DELIVERED : AlertTypeConfig :=
  { type := "success", priority := "medium", title := "Package Delivered", icon := "✅" }

def EXCEPTION : AlertTypeConfig :=
  { type := "error", priority := "high", title := "Delivery Exception", icon := "❌" }

def WEATHER_DELAY : AlertTypeConfig :=
  { type := "warning", priority := "medium", title := "Weather Delay", icon := "🌧️" }

def CUSTOMS_DELAY : AlertTypeConfig :=
  { type := "warning", priority := "medium", title := "Customs Processing", icon := "🛃" }

def ADDRESS_ISSUE : AlertTypeConfig :=
  { type := "error", priority := "high", title := "Address Problem", icon := "🏠" }

end ALERT_TYPES

/-- Does the second character list start with the first? -/
def listStartsWith : List Char → List Char → Bool
  | [], _ => true
  | _ :: _, [] => false
  | c :: cs, d :: ds => c == d && listStartsWith cs ds

/-- Substring occurrence on character lists. -/
def listHasSub : List Char → List Char → Bool
  | [], sub => sub.isEmpty
  | s@(_ :: rest), sub => listStartsWith sub s || listHasSub rest sub

/-- JS `s.includes(sub)`, computed on the strings' character lists (the
byte-position-based library functions do not reduce in the kernel; this
recursion has the same semantics). -/
def containsStr (s sub : String) : Bool :=
  listHasSub s.data sub.data

/-- JS `s.toLowerCase()`: lowercase every character. -/
def toLowerStr (s : String) : String :=
  String.mk (s.data.map Char.toLower)

/-- The id string `` `alert_${Date.now()}_${Math.random()...}` ``. -/
def mkAlertId (now : Nat) (rand : String) : String :=
  "alert_" ++ toString now ++ "_" ++ rand

/-- `createAlert(alertType, message, shipment, metadata)`.  The source's
object literal sets no `read` field; the structure default `read := false`
models the absent-hence-falsy JS field (see file comment). -/
def createAlert (now : Nat) (rand : String) (alertType : AlertTypeConfig)
    (message : String) (shipment : Shipment) (pattern : Option String) : Alert :=
  { id := mkAlertId now rand
    type := alertType.type
    priority := alertType.priority
    title := alertType.title
    message := message
    icon := alertType.icon
    timestamp := now
    shipmentId := shipment.shipmentId
    trackingNumber := shipment.trackingNumber
    dismissed := false
    metadata :=
      { carrier := shipment.carrier
        status := shipment.status
        pattern := pattern } }

/-- `getDelayReason(shipment)`: classify by the most recent historical
status location (`historicalStatuses?.[length-1]`; an empty history leaves
the optional chain `undefined`, so no substring can match). -/
def getDelayReason (shipment : Shipment) : String :=
  match shipment.historicalStatuses.getLast? with
  | some latest =>
    if containsStr (toLowerStr latest.location) "weather" then
      "Weather conditions causing delays"
    else if containsStr (toLowerStr latest.location) "customs" then
      "Customs processing delay"
    else if containsStr (toLowerStr latest.location) "address" then
      "Address verification required"
    else
      "Unexpected delay in transit"
  | none => "Unexpected delay in transit"

/-- `getDelayAlertType(reason)`. -/
def getDelayAlertType (reason : String) : AlertTypeConfig :=
  if containsStr (toLowerStr reason) "weather" then ALERT_TYPES.WEATHER_DELAY
  else if containsStr (toLowerStr reason) "customs" then ALERT_TYPES.CUSTOMS_DELAY
  else if containsStr (toLowerStr reason) "address" then ALERT_TYPES.ADDRESS_ISSUE
  else ALERT_TYPES.DELAY_DETECTED

/-- `getDaysOverdue(estimatedDelivery)` = `Math.ceil((now-estimated)/day)`;
only called when `now > estimated`, where the Nat ceiling formula agrees
with the JS float computation. -/
def getDaysOverdue (now estimated : Nat) : Nat :=
  (now - estimated + (86400000 - 1)) / 86400000

/-- `getHoursSinceUpdate(shipment)` = `Math.floor((now-lastUpdated)/hour)`.
A future `lastUpdated` gives a negative JS value; both it and the truncated
`0` here fail every `> bound` test the code performs. -/
def getHoursSinceUpdate (now : Nat) (shipment : Shipment) : Nat :=
  (now - shipment.lastUpdated) / 3600000

/-- `isShipmentStuck(shipment)`. -/
def isShipmentStuck (now : Nat) (shipment : Shipment) : Bool :=
  if shipment.status == "delivered" then false
  else
    getHoursSinceUpdate now shipment > 48 &&
      (shipment.status == "in_transit" || shipment.status == "pending")

/-- `hasUnusualRouting(shipment)`: repeated locations heuristic
(`locations.length > uniqueLocations.size + 1`). -/
def hasUnusualRouting (shipment : Shipment) : Bool :=
  if shipment.historicalStatuses.length < 3 then false
  else
    let locations := shipment.historicalStatuses.map (fun st => st.location)
    locations.length > locations.eraseDups.length + 1

/-- `detectCarrierIssues(shipment)`; returns the issue message or `null`.
For the FedEx branch, a missing first historical entry makes the JS
`transitDays` a `NaN`, which fails the `> 5` test, hence `none`. -/
def detectCarrierIssues (now : Nat) (shipment : Shipment) : Option String :=
  if shipment.carrier == "usps" && getHoursSinceUpdate now shipment > 72 then
    some "USPS packages often experience delays during peak seasons"
  else if shipment.carrier == "fedex" && shipment.status == "in_transit" then
    match shipment.historicalStatuses.head? with
    | some first =>
      if (now - first.timestamp) / 86400000 > 5 then
        some "FedEx shipment has been in transit longer than typical"
      else none
    | none => none
  else none

/-- `detectAdvancedPatterns(shipment)` (premium-only rules). -/
def detectAdvancedPatterns (now : Nat) (rand : String) (shipment : Shipment) :
    List Alert :=
  (if hasUnusualRouting shipment then
    [createAlert now rand ALERT_TYPES.EXCEPTION
      (shipment.nickname ++ " is taking an unusual route - may indicate processing issues")
      shipment (some "unusual_routing")]
  else []) ++
  (match detectCarrierIssues now shipment with
  | some carrierIssues =>
    [createAlert now rand ALERT_TYPES.DELAY_DETECTED
      (shipment.nickname ++ ": " ++ carrierIssues)
      shipment (some "carrier_issue")]
  | none => [])

/-- `analyzeShipmentForAlerts(shipment, previousStatus)`, the Alert Rule
Engine.  `premium` is the `hasPremiumFeatures()` feature gate and
`previousStatus = none` models the `null` default. -/
def analyzeShipmentForAlerts (now : Nat) (rand : String) (premium : Bool)
    (shipment : Shipment) (previousStatus : Option String) : List Alert :=
  (match shipment.estimatedDelivery with
  | some estimated =>
    if now > estimated &&
        shipment.status != "delivered" && shipment.status != "delayed" then
      [createAlert now rand ALERT_TYPES.DELAY_DETECTED
        (shipment.nickname ++ " is " ++ toString (getDaysOverdue now estimated) ++
          " day(s) overdue")
        shipment none]
    else []
  | none => []) ++
  (if shipment.status == "delayed" then
    let delayReason := getDelayReason shipment
    [createAlert now rand (getDelayAlertType delayReason)
      (shipment.nickname ++ ": " ++ delayReason) shipment none]
  else []) ++
  (if shipment.status == "out_for_delivery" then
    [createAlert now rand ALERT_TYPES.DELIVERY_SOON
      (shipment.nickname ++ " is out for delivery and should arrive today")
      shipment none]
  else []) ++
  (if shipment.status == "delivered" && previousStatus != some "delivered" then
    [createAlert now rand ALERT_TYPES.DELIVERED
      (shipment.nickname ++ " has been successfully delivered") shipment none]
  else []) ++
  (if isShipmentStuck now shipment then
    [createAlert now rand ALERT_TYPES.EXCEPTION
      (shipment.nickname ++ " hasn\x27t been updated in " ++
        toString (getHoursSinceUpdate now shipment) ++ " hours")
      shipment none]
  else []) ++
  (if premium then detectAdvancedPatterns now rand shipment else [])

/-- The user-preference record returned by `getUserPreferences()`. -/
structure UserPreferences where
  emailNotifications : Bool
  delayAlerts : Bool
  deliveryAlerts : Bool
  weeklyDigest : Bool
deriving DecidableEq

/-- One call to the Notification Port (`sendNotificationEmail`): an
individual alert email payload `{trackingNumber, status, message, title}`
or a digest payload `{alerts, count}`. -/
inductive Dispatch where
  | alertEmail (trackingNumber status message title : String)
  | digestEmail (alerts : List Alert) (count : Nat)
deriving DecidableEq

/-- `processAlertNotifications(alerts, userEmail)`, modelled as the list of
Notification Port calls it makes, in order.  The async preference fetch is
the `preferences` argument; send failures only affect logging, not which
dispatches are attempted. -/
def processAlertNotifications (alerts : List Alert)
    (preferences : UserPreferences) : List Dispatch :=
  if alerts.isEmpty then []
  else if !preferences.emailNotifications then []
  else
    let filteredAlerts := alerts.filter (fun alert =>
      if alert.type == "warning" && !preferences.delayAlerts then false
      else if alert.type == "success" && !preferences.deliveryAlerts then false
      else true)
    let highPriorityAlerts := filteredAlerts.filter (fun alert => alert.priority == "high")
    let otherAlerts := filteredAlerts.filter (fun alert => alert.priority != "high")
    highPriorityAlerts.map (fun alert =>
      Dispatch.alertEmail alert.trackingNumber alert.metadata.status
        alert.message alert.title) ++
    (if otherAlerts.isEmpty then []
     else [Dispatch.digestEmail otherAlerts otherAlerts.length])

/-- `deduplicateAlerts(newAlerts, existingAlerts)`: keep a new alert unless
some existing, non-dismissed alert shares its `(shipmentId, type, title)`. -/
def deduplicateAlerts (newAlerts existingAlerts : List Alert) : List Alert :=
  newAlerts.filter (fun newAlert =>
    !(existingAlerts.any (fun existing =>
      existing.shipmentId == newAlert.shipmentId &&
      existing.type == newAlert.type &&
      existing.title == newAlert.title &&
      !existing.dismissed)))

/-- `cleanupOutdatedAlerts(alerts, shipments)`.  The age test
`(now - timestamp)/day > 7` on JS floats is the integer comparison
`now - timestamp > 7*day`. -/
def cleanupOutdatedAlerts (now : Nat) (alerts : List Alert)
    (shipments : List Shipment) : List Alert :=
  alerts.filter (fun alert =>
    match shipments.find? (fun s => s.shipmentId == alert.shipmentId) with
    | none => false
    | some shipment =>
      if alert.title == "Delivery Today" && shipment.status != "out_for_delivery" then
        false
      else if alert.type == "warning" && shipment.status == "delivered" then
        false
      else if now - alert.timestamp > 7 * 86400000 then
        false
      else true)

/-- The Shipment Change Detector: `previousShipments.find(...)?.status`. -/
def computePreviousStatus (previousShipments : List Shipment)
    (shipment : Shipment) : Option String :=
  match previousShipments.find? (fun prev => prev.shipmentId == shipment.shipmentId) with
  | some prev => some prev.status
  | none => none

/-- The candidate batch one cycle of the `useAlerts` effect collects:
`analyzeShipmentForAlerts` over every shipment, previous status looked up
in the previously observed collection. -/
def generateNewAlerts (now : Nat) (rand : String) (premium : Bool)
    (shipments previousShipments : List Shipment) : List Alert :=
  shipments.flatMap (fun shipment =>
    analyzeShipmentForAlerts now rand premium shipment
      (computePreviousStatus previousShipments shipment))

/-- One per-cycle pipeline step of the `useAlerts` effect: derive
candidates, deduplicate against the current set, prepend the admitted
ones, clean up, and return the new (persisted) alert set. -/
def runAlertCycle (now : Nat) (rand : String) (premium : Bool)
    (shipments previousShipments : List Shipment)
    (prevAlerts : List Alert) : List Alert :=
  let newAlerts := generateNewAlerts now rand premium shipments previousShipments
  if newAlerts.isEmpty then prevAlerts
  else
    let uniqueNewAlerts := deduplicateAlerts newAlerts prevAlerts
    if uniqueNewAlerts.isEmpty then prevAlerts
    else cleanupOutdatedAlerts now (uniqueNewAlerts ++ prevAlerts) shipments

/-- The `useAlerts` hook's alert state: the in-memory React state and the
set last written through `alertStorage.save`. -/
structure AlertState where
  alerts : List Alert
  stored : List Alert
deriving DecidableEq

/-- `dismissAlert(alertId)`: mark matching alerts dismissed (stamping
`dismissedAt`), save that updated list, and keep only the non-dismissed
ones as the new in-memory state. -/
def dismissAlert (now : Nat) (alertId : String) (st : AlertState) : AlertState :=
  let updatedAlerts := st.alerts.map (fun alert =>
    if alert.id == alertId then
      { alert with dismissed := true, dismissedAt := some now }
    else alert)
  { alerts := updatedAlerts.filter (fun alert => !alert.dismissed)
    stored := updatedAlerts }

/-- The externally visible alert list the hook returns:
`alerts.filter(alert => !alert.dismissed)`. -/
def visibleAlerts (st : AlertState) : List Alert :=
  st.alerts.filter (fun alert => !alert.dismissed)

/-- The dedup key `(shipmentId, type, title)`. -/
def alertKey (a : Alert) : Option String × String × String :=
  (a.shipmentId, a.type, a.title)

/-- The spec §3 invariant: at most one non-dismissed alert per dedup key. -/
def dedupInvariant (alerts : List Alert) : Prop :=
  ((alerts.filter (fun a => !a.dismissed)).map alertKey).Nodup

/-- No two alerts of the list share a dedup key. -/
def distinctKeys (alerts : List Alert) : Prop :=
  (alerts.map alertKey).Nodup

instance (alerts : List Alert) : Decidable (dedupInvariant alerts) := by
  unfold dedupInvariant; infer_instance

instance (alerts : List Alert) : Decidable (distinctKeys alerts) := by
  unfold distinctKeys; infer_instance

/-- Is a dispatch an individual alert email? -/
def isAlertDispatch : Dispatch → Bool
  | Dispatch.alertEmail _ _ _ _ => true
  | Dispatch.digestEmail _ _ => false

/-- Is a dispatch a digest email? -/
def isDigestDispatch : Dispatch → Bool
  | Dispatch.alertEmail _ _ _ _ => false
  | Dispatch.digestEmail _ _ => true

/-! Concrete fixtures used by scenario conjuncts, witnesses and
counterexamples.  Timestamps are small epoch offsets (milliseconds). -/

/-- A premium USPS shipment that is 1 day overdue and 80 hours stale:
the overdue rule, the stuck rule and the premium carrier-issue rule all
fire on it. -/
def uspsShip : Shipment :=
  { shipmentId := some "s1", trackingNumber := "TN1", carrier := "usps",
    nickname := "Shoes", status := "in_transit",
    estimatedDelivery := some 213600000, lastUpdated := 12000000 }

/-- The spec §8 scenario shipment `{status: pending, estimatedDelivery:
yesterday}`, recently updated (at `now = 300000000`). -/
def pendShip : Shipment :=
  { shipmentId := some "s2", trackingNumber := "TN2", carrier := "ups",
    nickname := "Book", status := "pending",
    estimatedDelivery := some 213600000, lastUpdated := 300000000 }

/-- A delayed shipment whose latest historical location mentions weather. -/
def wxShip : Shipment :=
  { shipmentId := some "s3", trackingNumber := "TN3", carrier := "ups",
    nickname := "Hat", status := "delayed", lastUpdated := 300000000,
    historicalStatuses := [⟨"delayed", 1000, "Weather delay in transit"⟩] }

/-- A shipment whose `shipmentId` is missing (`undefined`): the spec §7
"malformed" case. -/
def malformedShip : Shipment :=
  { shipmentId := none, trackingNumber := "TNX", carrier := "ups",
    nickname := "Ghost", status := "delayed", lastUpdated := 300000000 }

/-- An out-for-delivery alert for `uspsShip`, sitting in the alert state. -/
def a0 : Alert :=
  createAlert 100 "r0" ALERT_TYPES.DELIVERY_SOON "m0" uspsShip none

/-- An alert state holding just `a0`, in memory and persisted. -/
def st0 : AlertState := { alerts := [a0], stored := [a0] }

/-- A later candidate sharing `a0`'s dedup key `(shipmentId, type, title)`. -/
def c0 : Alert :=
  createAlert 300 "r2" ALERT_TYPES.DELIVERY_SOON "m1" uspsShip none

/-- A high-priority alert fixture for the notification theorems. -/
def hiAlert : Alert :=
  createAlert 400 "r3" ALERT_TYPES.EXCEPTION "mh" uspsShip none

/-- A medium-priority alert fixture for the notification theorems. -/
def medAlert : Alert :=
  createAlert 400 "r4" ALERT_TYPES.DELIVERY_SOON "mm" uspsShip none

/-- The overdue alert the engine generates for `pendShip` at the scenario
instant. -/
def pendOverdueAlert : Alert :=
  createAlert 300000000 "r1" ALERT_TYPES.DELAY_DETECTED
    "Book is 1 day(s) overdue" pendShip none

/-- A just-delivered shipment (previous status `in_transit`). -/
def delivShip : Shipment :=
  { shipmentId := some "s4", trackingNumber := "TN4", carrier := "ups",
    nickname := "Cup", status := "delivered", lastUpdated := 300000000 }

/-- The delivered-transition alert the engine generates for `delivShip`. -/
def delivAlert : Alert :=
  createAlert 300000000 "r1" ALERT_TYPES.DELIVERED
    "Cup has been successfully delivered" delivShip none

/-- User preferences with every channel enabled. -/
def allOnPrefs : UserPreferences :=
  { emailNotifications := true, delayAlerts := true,
    deliveryAlerts := true, weeklyDigest := true }

/-! Helper lemmas shared by the claim theorems. -/

theorem createAlert_type (now : Nat) (rand : String) (cfg : AlertTypeConfig)
    (msg : String) (s : Shipment) (pat : Option String) :
    (createAlert now rand cfg msg s pat).type = cfg.type := rfl

theorem createAlert_priority (now : Nat) (rand : String) (cfg : AlertTypeConfig)
    (msg : String) (s : Shipment) (pat : Option String) :
    (createAlert now rand cfg msg s pat).priority = cfg.priority := rfl

theorem createAlert_title (now : Nat) (rand : String) (cfg : AlertTypeConfig)
    (msg : String) (s : Shipment) (pat : Option String) :
    (createAlert now rand cfg msg s pat).title = cfg.title := rfl

theorem createAlert_message (now : Nat) (rand : String) (cfg : AlertTypeConfig)
    (msg : String) (s : Shipment) (pat : Option String) :
    (createAlert now rand cfg msg s pat).message = msg := rfl

theorem mem_ite_singleton {α : Type} {c : Prop} [Decidable c] {x a : α}
    (h : a ∈ if c then [x] else ([] : List α)) : a = x ∧ c := by
  split at h
  · exact ⟨List.mem_singleton.mp h, by assumption⟩
  · simp at h

theorem getDelayAlertType_type_not_success (r : String) :
    ((getDelayAlertType r).type == "success") = false := by
  unfold getDelayAlertType
  split
  · decide
  · split
    · decide
    · split
      · decide
      · decide

/-- C3: every candidate the Rule Engine returns is stamped at creation:
id built from the current time and the random suffix, `timestamp = now`,
`dismissed = false`, `read` unset (hence `false` under JS truthiness), and
`metadata.carrier` / `metadata.status` copied from the shipment. -/
theorem analyze_candidate_stamping (now : Nat) (rand : String) (premium : Bool)
    (shipment : Shipment) (previousStatus : Option String) :
    ∀ a ∈ analyzeShipmentForAlerts now rand premium shipment previousStatus,
      a.id = mkAlertId now rand ∧ a.timestamp = now ∧ a.dismissed = false ∧
      a.read = false ∧ a.metadata.carrier = shipment.carrier ∧
      a.metadata.status = shipment.status := by
  intro a ha
  have hfields : ∀ (cfg : AlertTypeConfig) (msg : String) (pat : Option String),
      a = createAlert now rand cfg msg shipment pat →
      a.id = mkAlertId now rand ∧ a.timestamp = now ∧ a.dismissed = false ∧
      a.read = false ∧ a.metadata.carrier = shipment.carrier ∧
      a.metadata.status = shipment.status := by
    intro cfg msg pat h
    subst h
    exact ⟨rfl, rfl, rfl, rfl, rfl, rfl⟩
  unfold analyzeShipmentForAlerts detectAdvancedPatterns at ha
  simp only [List.mem_append] at ha
  rcases ha with ((((h | h) | h) | h) | h) | h
  · revert h
    split
    · intro h
      rcases mem_ite_singleton h with ⟨h1, _⟩
      exact hfields _ _ _ h1
    · intro h; simp at h
  · rcases mem_ite_singleton h with ⟨h1, _⟩
    exact hfields _ _ _ h1
  · rcases mem_ite_singleton h with ⟨h1, _⟩
    exact hfields _ _ _ h1
  · rcases mem_ite_singleton h with ⟨h1, _⟩
    exact hfields _ _ _ h1
  · rcases mem_ite_singleton h with ⟨h1, _⟩
    exact hfields _ _ _ h1
  · revert h
    split
    · intro h
      simp only [List.mem_append] at h
      rcases h with h | h
      · rcases mem_ite_singleton h with ⟨h1, _⟩
        exact hfields _ _ _ h1
      · revert h
        split
        · intro h
          rcases List.mem_singleton.mp h with h1
          exact hfields _ _ _ h1
        · intro h; simp at h
    · intro h; simp at h

/-- Witness for C3 at a concrete candidate of a concrete shipment. -/
theorem analyze_candidate_stamping_witness :
    pendOverdueAlert.id = mkAlertId 300000000 "r1" ∧
    pendOverdueAlert.timestamp = 300000000 ∧
    pendOverdueAlert.dismissed = false ∧ pendOverdueAlert.read = false ∧
    pendOverdueAlert.metadata.carrier = pendShip.carrier ∧
    pendOverdueAlert.metadata.status = pendShip.status :=
  analyze_candidate_stamping 300000000 "r1" false pendShip none
    pendOverdueAlert (by decide)

/-- C7: the engine emits a success alert iff the shipment is `delivered`
and the supplied previous status is not `delivered` (exactly one success
alert then, zero otherwise), and any success alert it emits is the
"Package Delivered" alert of priority `medium`. -/
theorem delivered_success_alert_iff (now : Nat) (rand : String) (premium : Bool)
    (shipment : Shipment) (prev : Option String) :
    ((analyzeShipmentForAlerts now rand premium shipment prev).countP
        (fun a => a.type == "success")
      = if shipment.status == "delivered" && prev != some "delivered" then 1 else 0) ∧
    (∀ a ∈ analyzeShipmentForAlerts now rand premium shipment prev,
      a.type = "success" → a.priority = "medium" ∧ a.title = "Package Delivered") := by
  constructor
  · unfold analyzeShipmentForAlerts detectAdvancedPatterns
    simp only [List.countP_append]
    repeat' split <;>
      simp_all [createAlert, List.countP_cons, getDelayAlertType_type_not_success,
        ALERT_TYPES.DELAY_DETECTED, ALERT_TYPES.DELIVERY_SOON, ALERT_TYPES.DELIVERED,
        ALERT_TYPES.EXCEPTION]
    all_goals
      intro a _ h
      rcases h with ⟨_, rfl⟩ | rfl <;> simp
  · intro a ha htype
    unfold analyzeShipmentForAlerts detectAdvancedPatterns at ha
    simp only [List.mem_append] at ha
    rcases ha with ((((h | h) | h) | h) | h) | h
    · revert h
      split
      · intro h
        rcases mem_ite_singleton h with ⟨h1, _⟩
        subst h1
        simp [createAlert, ALERT_TYPES.DELAY_DETECTED] at htype
      · intro h; simp at h
    · rcases mem_ite_singleton h with ⟨h1, _⟩
      subst h1
      rw [createAlert_type] at htype
      have := getDelayAlertType_type_not_success (getDelayReason shipment)
      simp [htype] at this
    · rcases mem_ite_singleton h with ⟨h1, _⟩
      subst h1
      simp [createAlert, ALERT_TYPES.DELIVERY_SOON] at htype
    · rcases mem_ite_singleton h with ⟨h1, _⟩
      subst h1
      exact ⟨rfl, rfl⟩
    · rcases mem_ite_singleton h with ⟨h1, _⟩
      subst h1
      simp [createAlert, ALERT_TYPES.EXCEPTION] at htype
    · revert h
      split
      · intro h
        simp only [List.mem_append] at h
        rcases h with h | h
        · rcases mem_ite_singleton h with ⟨h1, _⟩
          subst h1
          simp [createAlert, ALERT_TYPES.EXCEPTION] at htype
        · revert h
          split
          · intro h
            rcases List.mem_singleton.mp h with h1
            subst h1
            simp [createAlert, ALERT_TYPES.DELAY_DETECTED] at htype
          · intro h; simp at h
      · intro h; simp at h

/-- Witness for C7: the `in_transit → delivered` transition yields exactly
one success alert, and that alert is "Package Delivered" of medium
priority. -/
theorem delivered_success_alert_iff_witness :
    ((analyzeShipmentForAlerts 300000000 "r1" false delivShip (some "in_transit")).countP
        (fun a => a.type == "success") = 1) ∧
    (delivAlert.priority = "medium" ∧ delivAlert.title = "Package Delivered") := by
  constructor
  · have h := (delivered_success_alert_iff 300000000 "r1" false delivShip
      (some "in_transit")).1
    rw [h]
    decide
  · exact (delivered_success_alert_iff 300000000 "r1" false delivShip
      (some "in_transit")).2 delivAlert (by decide) (by decide)

/-- C5: for a shipment with a set `estimatedDelivery` in the past and a
status that is neither `delivered` nor `delayed`, the engine yields an
overdue alert of type `warning`, priority `high`, whose message states the
days overdue `d = ceil((now - estimatedDelivery)/1 day)` — characterised by
`86400000*(d-1) < now-est ≤ 86400000*d`; and the spec scenario
`{status: pending, estimatedDelivery: yesterday}` yields exactly one alert,
`warning`/`high`, mentioning "1 day(s) overdue". -/
theorem overdue_alert_rule (now : Nat) (rand : String) (premium : Bool)
    (shipment : Shipment) (prev : Option String) (est : Nat)
    (hest : shipment.estimatedDelivery = some est) (hlt : est < now)
    (hnd : shipment.status ≠ "delivered") (hnl : shipment.status ≠ "delayed") :
    (∃ a ∈ analyzeShipmentForAlerts now rand premium shipment prev,
      a.type = "warning" ∧ a.priority = "high" ∧ a.title = "Shipment Delayed" ∧
      ∃ d : Nat, a.message = shipment.nickname ++ " is " ++ toString d ++
          " day(s) overdue" ∧
        86400000 * (d - 1) < now - est ∧ now - est ≤ 86400000 * d) ∧
    ((analyzeShipmentForAlerts 300000000 "r1" false pendShip none).length = 1 ∧
     ∀ a ∈ analyzeShipmentForAlerts 300000000 "r1" false pendShip none,
       a.type = "warning" ∧ a.priority = "high" ∧
       containsStr a.message "1 day(s) overdue" = true) := by
  constructor
  · refine ⟨createAlert now rand ALERT_TYPES.DELAY_DETECTED
      (shipment.nickname ++ " is " ++ toString (getDaysOverdue now est) ++
        " day(s) overdue") shipment none, ?_, rfl, rfl, rfl,
      getDaysOverdue now est, rfl, ?_, ?_⟩
    · unfold analyzeShipmentForAlerts
      rw [hest]
      simp [hlt, hnd, hnl, List.mem_append]
    · unfold getDaysOverdue
      omega
    · unfold getDaysOverdue
      omega
  · constructor
    · decide
    · decide

/-- Witness for C5 at the scenario shipment: estimated delivery exactly one
day before `now`. -/
theorem overdue_alert_rule_witness :
    pendShip.estimatedDelivery = some 213600000 ∧ 213600000 < 300000000 ∧
    pendShip.status ≠ "delivered" ∧ pendShip.status ≠ "delayed" ∧
    (∃ a ∈ analyzeShipmentForAlerts 300000000 "r1" false pendShip none,
      a.type = "warning" ∧ a.priority = "high" ∧ a.title = "Shipment Delayed" ∧
      ∃ d : Nat, a.message = pendShip.nickname ++ " is " ++ toString d ++
          " day(s) overdue" ∧
        86400000 * (d - 1) < 300000000 - 213600000 ∧
        300000000 - 213600000 ≤ 86400000 * d) :=
  ⟨rfl, by decide, by decide, by decide,
   (overdue_alert_rule 300000000 "r1" false pendShip none 213600000 rfl
      (by decide) (by decide) (by decide)).1⟩

theorem delayed_alert_mem (now : Nat) (rand : String) (premium : Bool)
    (shipment : Shipment) (prev : Option String)
    (h : shipment.status = "delayed") :
    createAlert now rand (getDelayAlertType (getDelayReason shipment))
      (shipment.nickname ++ ": " ++ getDelayReason shipment) shipment none
      ∈ analyzeShipmentForAlerts now rand premium shipment prev := by
  unfold analyzeShipmentForAlerts
  simp [h, List.mem_append]

/-- C6: for a delayed shipment the engine classifies by case-insensitive
substring match on the most recent historical-status location, in the
source's match order: "weather" gives the Weather Delay alert
(warning/medium); otherwise "customs" gives Customs Processing
(warning/medium); otherwise "address" gives Address Problem (error/high);
otherwise (or with no history at all) the generic Shipment Delayed alert
(warning/high). -/
theorem delayed_classification (now : Nat) (rand : String) (premium : Bool)
    (shipment : Shipment) (prev : Option String)
    (hst : shipment.status = "delayed") :
    (∀ latest, shipment.historicalStatuses.getLast? = some latest →
      ((containsStr (toLowerStr latest.location) "weather" = true →
        ∃ a ∈ analyzeShipmentForAlerts now rand premium shipment prev,
          a.title = "Weather Delay" ∧ a.type = "warning" ∧ a.priority = "medium") ∧
       (containsStr (toLowerStr latest.location) "weather" = false →
        containsStr (toLowerStr latest.location) "customs" = true →
        ∃ a ∈ analyzeShipmentForAlerts now rand premium shipment prev,
          a.title = "Customs Processing" ∧ a.type = "warning" ∧ a.priority = "medium") ∧
       (containsStr (toLowerStr latest.location) "weather" = false →
        containsStr (toLowerStr latest.location) "customs" = false →
        containsStr (toLowerStr latest.location) "address" = true →
        ∃ a ∈ analyzeShipmentForAlerts now rand premium shipment prev,
          a.title = "Address Problem" ∧ a.type = "error" ∧ a.priority = "high") ∧
       (containsStr (toLowerStr latest.location) "weather" = false →
        containsStr (toLowerStr latest.location) "customs" = false →
        containsStr (toLowerStr latest.location) "address" = false →
        ∃ a ∈ analyzeShipmentForAlerts now rand premium shipment prev,
          a.title = "Shipment Delayed" ∧ a.type = "warning" ∧ a.priority = "high"))) ∧
    (shipment.historicalStatuses.getLast? = none →
      ∃ a ∈ analyzeShipmentForAlerts now rand premium shipment prev,
        a.title = "Shipment Delayed" ∧ a.type = "warning" ∧ a.priority = "high") := by
  have hmem := delayed_alert_mem now rand premium shipment prev hst
  constructor
  · intro latest hlatest
    refine ⟨?_, ?_, ?_, ?_⟩
    · intro hw
      have hr : getDelayReason shipment = "Weather conditions causing delays" := by
        unfold getDelayReason
        rw [hlatest]
        simp [hw]
      have ht : getDelayAlertType (getDelayReason shipment) = ALERT_TYPES.WEATHER_DELAY := by
        rw [hr]; decide
      refine ⟨_, hmem, ?_, ?_, ?_⟩
      · rw [createAlert_title, ht]; rfl
      · rw [createAlert_type, ht]; rfl
      · rw [createAlert_priority, ht]; rfl
    · intro hw hc
      have hr : getDelayReason shipment = "Customs processing delay" := by
        unfold getDelayReason
        rw [hlatest]
        simp [hw, hc]
      have ht : getDelayAlertType (getDelayReason shipment) = ALERT_TYPES.CUSTOMS_DELAY := by
        rw [hr]; decide
      refine ⟨_, hmem, ?_, ?_, ?_⟩
      · rw [createAlert_title, ht]; rfl
      · rw [createAlert_type, ht]; rfl
      · rw [createAlert_priority, ht]; rfl
    · intro hw hc ha
      have hr : getDelayReason shipment = "Address verification required" := by
        unfold getDelayReason
        rw [hlatest]
        simp [hw, hc, ha]
      have ht : getDelayAlertType (getDelayReason shipment) = ALERT_TYPES.ADDRESS_ISSUE := by
        rw [hr]; decide
      refine ⟨_, hmem, ?_, ?_, ?_⟩
      · rw [createAlert_title, ht]; rfl
      · rw [createAlert_type, ht]; rfl
      · rw [createAlert_priority, ht]; rfl
    · intro hw hc ha
      have hr : getDelayReason shipment = "Unexpected delay in transit" := by
        unfold getDelayReason
        rw [hlatest]
        simp [hw, hc, ha]
      have ht : getDelayAlertType (getDelayReason shipment) = ALERT_TYPES.DELAY_DETECTED := by
        rw [hr]; decide
      refine ⟨_, hmem, ?_, ?_, ?_⟩
      · rw [createAlert_title, ht]; rfl
      · rw [createAlert_type, ht]; rfl
      · rw [createAlert_priority, ht]; rfl
  · intro hnone
    have hr : getDelayReason shipment = "Unexpected delay in transit" := by
      unfold getDelayReason
      rw [hnone]
    have ht : getDelayAlertType (getDelayReason shipment) = ALERT_TYPES.DELAY_DETECTED := by
      rw [hr]; decide
    refine ⟨_, hmem, ?_, ?_, ?_⟩
    · rw [createAlert_title, ht]; rfl
    · rw [createAlert_type, ht]; rfl
    · rw [createAlert_priority, ht]; rfl

/-- Witness for C6: a delayed shipment whose latest historical location
mentions weather gets the Weather Delay alert of priority medium. -/
theorem delayed_classification_witness :
    wxShip.status = "delayed" ∧
    wxShip.historicalStatuses.getLast? =
      some ⟨"delayed", 1000, "Weather delay in transit"⟩ ∧
    containsStr (toLowerStr "Weather delay in transit") "weather" = true ∧
    (∃ a ∈ analyzeShipmentForAlerts 300000000 "r1" false wxShip none,
      a.title = "Weather Delay" ∧ a.type = "warning" ∧ a.priority = "medium") :=
  ⟨rfl, by decide, by decide,
   ((delayed_classification 300000000 "r1" false wxShip none rfl).1
      ⟨"delayed", 1000, "Weather delay in transit"⟩ (by decide)).1 (by decide)⟩

/-- C10: with the premium gate off, one engine call returns at most 2
candidate alerts; and for any status other than `in_transit`, `pending`
and `out_for_delivery` (in particular for `delayed`, `delivered` and
`exception`) it returns at most 1, since only the overdue+stuck and
overdue+out-for-delivery rule pairs can co-fire. -/
theorem nonpremium_candidate_bound (now : Nat) (rand : String)
    (shipment : Shipment) (prev : Option String) :
    ((analyzeShipmentForAlerts now rand false shipment prev).length ≤ 2) ∧
    (shipment.status ≠ "in_transit" → shipment.status ≠ "pending" →
     shipment.status ≠ "out_for_delivery" →
     (analyzeShipmentForAlerts now rand false shipment prev).length ≤ 1) := by
  unfold analyzeShipmentForAlerts isShipmentStuck
  constructor
  · simp only [List.length_append]
    repeat' split <;> simp_all
  · intro h1 h2 h3
    simp only [List.length_append]
    repeat' split <;> simp_all

/-- Witness for C10 at a delayed shipment. -/
theorem nonpremium_candidate_bound_witness :
    wxShip.status ≠ "in_transit" ∧ wxShip.status ≠ "pending" ∧
    wxShip.status ≠ "out_for_delivery" ∧
    (analyzeShipmentForAlerts 300000000 "r1" false wxShip none).length ≤ 2 ∧
    (analyzeShipmentForAlerts 300000000 "r1" false wxShip none).length ≤ 1 :=
  ⟨by decide, by decide, by decide,
   (nonpremium_candidate_bound 300000000 "r1" wxShip none).1,
   (nonpremium_candidate_bound 300000000 "r1" wxShip none).2
     (by decide) (by decide) (by decide)⟩

/-- C9: with email notifications disabled, `processAlertNotifications`
makes no dispatch at all; with them enabled, warning alerts are dropped
unless `delayAlerts` is on and success alerts unless `deliveryAlerts` is
on, each surviving high-priority alert is dispatched individually (in
order), and the surviving medium/low alerts are batched into exactly one
digest dispatch carrying their sequence and count (no digest when none
survive). -/
theorem notify_policy (alerts : List Alert) (prefs : UserPreferences) :
    (prefs.emailNotifications = false → processAlertNotifications alerts prefs = []) ∧
    (prefs.emailNotifications = true →
      ((processAlertNotifications alerts prefs).filter isAlertDispatch
        = ((alerts.filter (fun a =>
              !(a.type == "warning" && !prefs.delayAlerts) &&
              !(a.type == "success" && !prefs.deliveryAlerts))).filter
            (fun a => a.priority == "high")).map
            (fun a => Dispatch.alertEmail a.trackingNumber a.metadata.status
              a.message a.title)) ∧
      ((processAlertNotifications alerts prefs).countP isDigestDispatch
        = if ((alerts.filter (fun a =>
              !(a.type == "warning" && !prefs.delayAlerts) &&
              !(a.type == "success" && !prefs.deliveryAlerts))).filter
            (fun a => a.priority != "high")).isEmpty then 0 else 1) ∧
      (∀ others, others = (alerts.filter (fun a =>
              !(a.type == "warning" && !prefs.delayAlerts) &&
              !(a.type == "success" && !prefs.deliveryAlerts))).filter
            (fun a => a.priority != "high") →
        others.isEmpty = false →
        Dispatch.digestEmail others others.length ∈ processAlertNotifications alerts prefs)) := by
  have hfil : alerts.filter (fun alert =>
      if alert.type == "warning" && !prefs.delayAlerts then false
      else if alert.type == "success" && !prefs.deliveryAlerts then false
      else true)
    = alerts.filter (fun a =>
        !(a.type == "warning" && !prefs.delayAlerts) &&
        !(a.type == "success" && !prefs.deliveryAlerts)) := by
    refine List.filter_congr ?_
    intro a _
    cases h1 : a.type == "warning" <;> cases h2 : a.type == "success" <;>
      cases hp1 : prefs.delayAlerts <;> cases hp2 : prefs.deliveryAlerts <;>
      simp [h1, h2, hp1, hp2]
  have hmapfilter : ∀ (l : List Alert),
      (l.map (fun alert => Dispatch.alertEmail alert.trackingNumber
        alert.metadata.status alert.message alert.title)).filter isAlertDispatch
      = l.map (fun alert => Dispatch.alertEmail alert.trackingNumber
        alert.metadata.status alert.message alert.title) := by
    intro l
    refine List.filter_eq_self.mpr ?_
    intro d hd
    obtain ⟨x, _, rfl⟩ := List.mem_map.mp hd
    rfl
  have hmapcount : ∀ (l : List Alert),
      (l.map (fun alert => Dispatch.alertEmail alert.trackingNumber
        alert.metadata.status alert.message alert.title)).countP isDigestDispatch
      = 0 := by
    intro l
    refine List.countP_eq_zero.mpr ?_
    intro d hd
    obtain ⟨x, _, rfl⟩ := List.mem_map.mp hd
    simp [isDigestDispatch]
  constructor
  · intro h
    unfold processAlertNotifications
    split
    · rfl
    · simp [h]
  · intro h
    cases alerts with
    | nil =>
      simp [processAlertNotifications, isAlertDispatch, isDigestDispatch]
    | cons a as =>
      have hmain : processAlertNotifications (a :: as) prefs
          = (((a :: as).filter (fun x =>
                !(x.type == "warning" && !prefs.delayAlerts) &&
                !(x.type == "success" && !prefs.deliveryAlerts))).filter
              (fun x => x.priority == "high")).map
              (fun x => Dispatch.alertEmail x.trackingNumber x.metadata.status
                x.message x.title) ++
            (if (((a :: as).filter (fun x =>
                !(x.type == "warning" && !prefs.delayAlerts) &&
                !(x.type == "success" && !prefs.deliveryAlerts))).filter
              (fun x => x.priority != "high")).isEmpty then []
             else [Dispatch.digestEmail (((a :: as).filter (fun x =>
                !(x.type == "warning" && !prefs.delayAlerts) &&
                !(x.type == "success" && !prefs.deliveryAlerts))).filter
              (fun x => x.priority != "high"))
              ((((a :: as).filter (fun x =>
                !(x.type == "warning" && !prefs.delayAlerts) &&
                !(x.type == "success" && !prefs.deliveryAlerts))).filter
              (fun x => x.priority != "high")).length)]) := by
        unfold processAlertNotifications
        rw [hfil]
        simp [h]
      refine ⟨?_, ?_, ?_⟩
      · rw [hmain, List.filter_append, hmapfilter]
        have hpiece : ∀ (l : List Alert) (d : List Dispatch),
            ((if l.isEmpty then [] else [Dispatch.digestEmail l l.length]).filter
              isAlertDispatch) = [] := by
          intro l d
          split <;> simp [isAlertDispatch]
        rw [hpiece _ [], List.append_nil]
      · rw [hmain, List.countP_append, hmapcount]
        split <;> simp_all [isDigestDispatch]
      · intro others hothers hne
        rw [hmain]
        subst hothers
        refine List.mem_append_right _ ?_
        rw [if_neg ?_]
        · exact List.mem_singleton.mpr rfl
        · rw [hne]
          exact Bool.false_ne_true

/-- Witness for C9: one high-priority and one medium-priority alert under
all-enabled preferences give one individual dispatch and one digest. -/
theorem notify_policy_witness :
    allOnPrefs.emailNotifications = true ∧
    ((processAlertNotifications [hiAlert, medAlert] allOnPrefs).filter isAlertDispatch
      = [Dispatch.alertEmail hiAlert.trackingNumber hiAlert.metadata.status
          hiAlert.message hiAlert.title]) ∧
    ((processAlertNotifications [hiAlert, medAlert] allOnPrefs).countP
        isDigestDispatch = 1) ∧
    Dispatch.digestEmail [medAlert] [medAlert].length
      ∈ processAlertNotifications [hiAlert, medAlert] allOnPrefs := by
  have h := (notify_policy [hiAlert, medAlert] allOnPrefs).2 rfl
  refine ⟨rfl, ?_, ?_, ?_⟩
  · rw [h.1]
    decide
  · rw [h.2.1]
    decide
  · exact h.2.2 [medAlert] (by decide) (by decide)

theorem dedupInvariant_of_sublist {l l' : List Alert} (h : List.Sublist l' l)
    (hinv : dedupInvariant l) : dedupInvariant l' := by
  unfold dedupInvariant at hinv ⊢
  exact hinv.sublist ((List.Sublist.filter _ h).map alertKey)

/-- C1 (amended): the per-cycle pipeline preserves the at-most-one
non-dismissed-alert-per-(shipmentId, type, title) invariant PROVIDED the
cycle's candidate batch itself contains no two candidates sharing a key;
`deduplicateAlerts` checks candidates only against the existing set, so
within-batch duplicates are not prevented (see the counterexample). -/
theorem cycle_preserves_dedup_invariant (now : Nat) (rand : String) (premium : Bool)
    (shipments previousShipments : List Shipment) (prevAlerts : List Alert)
    (hprev : dedupInvariant prevAlerts)
    (hbatch : distinctKeys (generateNewAlerts now rand premium shipments previousShipments)) :
    dedupInvariant (runAlertCycle now rand premium shipments previousShipments prevAlerts) := by
  simp only [runAlertCycle]
  split
  · exact hprev
  · split
    · exact hprev
    · have hmid : dedupInvariant
          (deduplicateAlerts (generateNewAlerts now rand premium shipments previousShipments)
              prevAlerts
            ++ prevAlerts) := by
        unfold dedupInvariant
        rw [List.filter_append, List.map_append, List.nodup_append]
        refine ⟨?_, hprev, ?_⟩
        · have hu : List.Sublist
              (deduplicateAlerts
                (generateNewAlerts now rand premium shipments previousShipments) prevAlerts)
              (generateNewAlerts now rand premium shipments previousShipments) := by
            unfold deduplicateAlerts
            exact List.filter_sublist _
          have h2 := (List.filter_sublist (p := fun a => !a.dismissed) _).trans hu
          exact hbatch.sublist (h2.map alertKey)
        · intro k hk1 hk2
          obtain ⟨a, ha, rfl⟩ := List.mem_map.mp hk1
          obtain ⟨b, hb, hkey⟩ := List.mem_map.mp hk2
          obtain ⟨hau, -⟩ := List.mem_filter.mp ha
          obtain ⟨hbp, hbnd⟩ := List.mem_filter.mp hb
          obtain ⟨-, hnone⟩ := List.mem_filter.mp hau
          rw [Bool.not_eq_true', List.any_eq_false] at hnone
          have hfb := hnone b hbp
          unfold alertKey at hkey
          have h1 : b.shipmentId = a.shipmentId := congrArg Prod.fst hkey
          have h2 : b.type = a.type := congrArg (fun p => p.2.1) hkey
          have h3 : b.title = a.title := congrArg (fun p => p.2.2) hkey
          simp [h1, h2, h3, hbnd] at hfb
      refine dedupInvariant_of_sublist ?_ hmid
      unfold cleanupOutdatedAlerts
      exact List.filter_sublist _

/-- Counterexample for C1 as stated: on a premium USPS shipment that is
both overdue and stale, the overdue rule and the carrier-issue rule each
emit a `(some "s1", "warning", "Shipment Delayed")` alert in one batch,
and the cycle's result keeps both non-dismissed — the dedup-key list of
the reachable result contains the same key twice. -/
theorem cycle_batch_duplicate_key_exhibit :
    ((runAlertCycle 300000000 "r1" true [uspsShip] [] []).filter
        (fun a => !a.dismissed)).map alertKey
      = [(some "s1", "warning", "Shipment Delayed"),
         (some "s1", "error", "Delivery Exception"),
         (some "s1", "warning", "Shipment Delayed")] := by decide

/-- Witness for the amended C1 at a concrete duplicate-free cycle. -/
theorem cycle_preserves_dedup_invariant_witness :
    dedupInvariant ([] : List Alert) ∧
    distinctKeys (generateNewAlerts 300000000 "r1" false [pendShip] []) ∧
    dedupInvariant (runAlertCycle 300000000 "r1" false [pendShip] [] []) :=
  ⟨by decide, by decide,
   cycle_preserves_dedup_invariant 300000000 "r1" false [pendShip] [] []
     (by decide) (by decide)⟩

/-- C2 (amended): `dismissAlert` retains the alert in the persisted set
marked `dismissed = true` with a `dismissedAt` stamp, drops it from the
in-memory set and from the externally visible list — but a subsequent
candidate sharing its `(shipmentId, type, title)` key is NOT suppressed:
the dedup check ignores dismissed alerts (and the dismissed alert is not
even in the in-memory set the next cycle dedups against), so the alert can
re-fire immediately rather than only after cleanup expiry. -/
theorem dismiss_marks_and_never_suppresses (now : Nat) (alertId : String) (st : AlertState) :
    (∀ a ∈ st.alerts, a.id = alertId →
      ({ a with dismissed := true, dismissedAt := some now } : Alert)
        ∈ (dismissAlert now alertId st).stored) ∧
    (∀ a ∈ (dismissAlert now alertId st).alerts, a.id ≠ alertId) ∧
    (∀ a ∈ visibleAlerts (dismissAlert now alertId st), a.id ≠ alertId) ∧
    (∀ c existing, (∀ e ∈ existing, alertKey e = alertKey c → e.dismissed = true) →
      deduplicateAlerts [c] existing = [c]) := by
  have halerts : ∀ a ∈ (dismissAlert now alertId st).alerts, a.id ≠ alertId := by
    intro a ha hid
    unfold dismissAlert at ha
    simp only at ha
    obtain ⟨hamem, hand⟩ := List.mem_filter.mp ha
    obtain ⟨b, hb, rfl⟩ := List.mem_map.mp hamem
    cases hbeq : (b.id == alertId) <;> simp [hbeq] at hand hid
    simp_all
  refine ⟨?_, halerts, ?_, ?_⟩
  · intro a ha hid
    unfold dismissAlert
    simp only
    have hfa : (fun alert =>
        if alert.id == alertId then
          { alert with dismissed := true, dismissedAt := some now }
        else alert) a
        = { a with dismissed := true, dismissedAt := some now } := by
      simp [hid]
    rw [← hfa]
    exact List.mem_map_of_mem _ ha
  · intro a ha
    exact halerts a (List.mem_filter.mp ha).1
  · intro c existing hdis
    unfold deduplicateAlerts
    rw [List.filter_eq_self]
    intro a ha
    rw [List.mem_singleton] at ha
    subst ha
    rw [Bool.not_eq_eq_eq_not, Bool.not_true, List.any_eq_false]
    intro e he
    by_cases hkey : alertKey e = alertKey a
    · have := hdis e he hkey
      simp [this]
    · intro hcontra
      apply hkey
      unfold alertKey
      simp only [Bool.and_eq_true, beq_iff_eq] at hcontra
      obtain ⟨⟨⟨h1, h2⟩, h3⟩, -⟩ := hcontra
      rw [h1, h2, h3]

/-- Counterexample for C2 as stated: after dismissing `a0`, the persisted
set retains it marked dismissed and it is invisible, yet a new candidate
`c0` with the same key is admitted by the dedup check — both against the
in-memory set and even against the persisted set that still holds the
dismissed alert. -/
theorem dismiss_no_suppression_exhibit :
    (dismissAlert 200 a0.id st0).stored
      = [{ a0 with dismissed := true, dismissedAt := some 200 }] ∧
    visibleAlerts (dismissAlert 200 a0.id st0) = [] ∧
    alertKey c0 = alertKey a0 ∧
    deduplicateAlerts [c0] (dismissAlert 200 a0.id st0).alerts = [c0] ∧
    deduplicateAlerts [c0] (dismissAlert 200 a0.id st0).stored = [c0] := by
  decide

/-- Witness for the amended C2 at the concrete dismissed alert `a0` and
same-key candidate `c0`. -/
theorem dismiss_marks_and_never_suppresses_witness :
    ({ a0 with dismissed := true, dismissedAt := some 200 } : Alert)
      ∈ (dismissAlert 200 a0.id st0).stored ∧
    deduplicateAlerts [c0]
      [{ a0 with dismissed := true, dismissedAt := some 200 }] = [c0] :=
  ⟨(dismiss_marks_and_never_suppresses 200 a0.id st0).1 a0 (by decide) rfl,
   (dismiss_marks_and_never_suppresses 200 a0.id st0).2.2.2 c0
     [{ a0 with dismissed := true, dismissedAt := some 200 }] (by decide)⟩

/-- C4 (code bug): the admission step performs no well-formedness check.
A candidate derived from a shipment with a missing (`undefined`)
`shipmentId` passes `deduplicateAlerts` unchanged and ends up in the
cleaned, persisted alert set produced by the cycle — the spec's §7
requirement that malformed candidates be rejected at admission time is
not implemented. -/
theorem malformed_candidate_admitted :
    (runAlertCycle 300000000 "r1" false [malformedShip] [] []).length = 1 ∧
    (runAlertCycle 300000000 "r1" false [malformedShip] [] []).map
        (fun a => a.shipmentId) = [none] ∧
    deduplicateAlerts
      (generateNewAlerts 300000000 "r1" false [malformedShip] []) []
      = generateNewAlerts 300000000 "r1" false [malformedShip] [] := by
  decide

/-- C8: cleanup is idempotent — running `cleanupOutdatedAlerts` on its own
output (same shipment collection, same current time) returns that output
unchanged. -/
theorem cleanupOutdatedAlerts_idempotent (now : Nat) (alerts : List Alert)
    (shipments : List Shipment) :
    cleanupOutdatedAlerts now (cleanupOutdatedAlerts now alerts shipments) shipments
      = cleanupOutdatedAlerts now alerts shipments := by
  unfold cleanupOutdatedAlerts
  rw [List.filter_filter]
  exact List.filter_congr (fun a _ => Bool.and_self _)

end ShipmentTrackr
